import Mathlib

/-!
Verification of the ecospheres-migrator batch transformation/migration engine.

The repository sources available are `ecospheres_migrator/geonetwork.py`,
`ecospheres_migrator/app.py` and the test suite (`tests/test_transform.py`,
`tests/test_migrate.py`).  The engine modules `ecospheres_migrator/batch.py`
and `ecospheres_migrator/migrator.py` (imported by the tests) are not among
the sources, so the transform and migrate stages below are modelled from the
specification, with every behavior that the test suite pins taken from the
tests.  `extract_record_info` and `GeonetworkClient.update_record` are
embedded directly from `geonetwork.py`.

Python-to-Lean conventions used throughout:
- record/content XML text is `String`; remote calls that may raise are
  functions into `Except String _` carrying the exception message;
- in-place mutation (lxml tree surgery in `extract_record_info`) is embedded
  by explicit state passing: the function returns the mutated tree;
- Python dicts used as ordered string mappings become `List (String × String)`.
-/

namespace Ecospheres

/-- Modelled from the spec: `metadataType` of a record (§3 data model); the
`MetadataType` enum lives in the version of `geonetwork.py` that the
tests pull in (`from ecospheres_migrator.geonetwork import MetadataType`),
which is missing from the sources; the spec lists exactly these four
values. -/
inductive MetadataType
  | METADATA
  | TEMPLATE
  | SUB_TEMPLATE
  | TEMPLATE_OF_SUB_TEMPLATE
  deriving DecidableEq

/-- Modelled from the spec: workflow stage (§3: `workflowState` is a nullable
`stage: NONE|WORKING_COPY` plus a status); `WorkflowStage` is imported by the
tests from the missing newer `geonetwork.py`. -/
inductive WorkflowStage
  | NONE
  | WORKING_COPY
  deriving DecidableEq

/-- Modelled from the spec: the workflow state attached to a record (§3).
The status is the integer workflow status id, as in
`GeonetworkClient.get_record_status` (src `geonetwork.py`), which returns
`int | None`; the `None` case is modelled by `Record.state = none`. -/
structure WorkflowState where
  stage : WorkflowStage
  status : Int
  deriving DecidableEq

/-- Modelled from the spec: the record snapshot selected for a batch run (§3).
The `Record` dataclass in src `geonetwork.py` is an earlier version with
fields `uuid`, `title`, `template`, `status`; the tests set `record.state`
and force `md_type` via `GeonetworkClient._get_md_type`, so the engine-side
record carries `md_type` and a nullable workflow `state`. -/
structure Record where
  uuid : String
  title : String
  template : Bool
  md_type : MetadataType
  state : Option WorkflowState
  deriving DecidableEq

/-- True when the record is under active draft editing
(spec §4.2 step 2: `workflowState.stage == WORKING_COPY`). -/
def Record.hasWorkingCopy (r : Record) : Bool :=
  match r.state with
  | some st =>
    match st.stage with
    | WorkflowStage.WORKING_COPY => true
    | WorkflowStage.NONE => false
  | none => false

/-- The record workflow status passed along to the migrate stage
(`int | None` in `geonetwork.py`). -/
def Record.statusOf (r : Record) : Option Int :=
  match r.state with
  | some st => some st.status
  | none => none

/-- Modelled from the spec: `SkipReason` enum (§3), from the missing
`migrator.py` (the tests import `SkipReason` from it). -/
inductive SkipReason
  | HAS_WORKING_COPY
  | UNSUPPORTED_METADATA_TYPE
  | NO_CHANGE
  deriving DecidableEq

/-- Modelled from the spec: per-record transform outcome (§3
`TransformResult`): exactly one of `skipped(reason)`,
`success(resultContent)`, `failure(error)`. -/
inductive TransformOutcome
  | success (result : String)
  | failure (error : String)
  | skipped (reason : SkipReason)
  deriving DecidableEq

def TransformOutcome.isSuccess : TransformOutcome → Bool
  | .success _ => true
  | _ => false

def TransformOutcome.isFailure : TransformOutcome → Bool
  | .failure _ => true
  | _ => false

def TransformOutcome.isSkip : TransformOutcome → Bool
  | .skipped _ => true
  | _ => false

/-- True exactly on `skipped NO_CHANGE` outcomes. -/
def TransformOutcome.isNoChange : TransformOutcome → Bool
  | .skipped SkipReason.NO_CHANGE => true
  | _ => false

/-- Modelled from the spec: a per-record transform result (§3), pairing the
record with its single outcome. -/
structure TransformResult where
  record : Record
  outcome : TransformOutcome
  deriving DecidableEq

/-- Modelled from the spec: declared transformation parameter (§3), as pinned
by `tests/test_transform.py::test_load_transformation_params`
(`TransformationParam(name=..., default_value=..., required=...)`). -/
structure TransformationParam where
  name : String
  default_value : Option String
  required : Bool
  deriving DecidableEq

/-- Modelled from the spec: the explicit three-way result of
`Transformation.apply` (§9 design notes: `Changed(newXML) | NoChange |
raises`); a raise carries the exception message. -/
inductive ApplyResult
  | changed (result : String)
  | noChange
  | raises (msg : String)
  deriving DecidableEq

/-- Modelled from the spec: a named unit of change logic (§3), treated by the
engine as an opaque function `apply(recordXML, params)`; from the missing
`migrator.py`. -/
structure Transformation where
  id : String
  title : String
  description : String
  params : List TransformationParam
  apply : String → List (String × String) → ApplyResult

/-- Modelled from the spec: the `noop` transformation of the test
transformation set ("A transformation that never changes content (id noop)",
spec §8); its definition directory is not among the sources. -/
def noopTransformation : Transformation :=
  { id := "noop", title := "noop", description := "", params := [],
    apply := fun _ _ => ApplyResult.noChange }

/-- Modelled from the spec: the `error` transformation of the test
transformation set ("A transformation that always raises (id error)", spec
§8), raising with the given message; its definition directory is not among
the sources. -/
def errorTransformation (msg : String) : Transformation :=
  { id := "error", title := "error", description := "", params := [],
    apply := fun _ _ => ApplyResult.raises msg }

/-- Modelled from the spec: `TransformBatch` (§3): transformation id,
resolved params, and the ordered per-record results. -/
structure TransformBatch where
  transformation : String
  params : List (String × String)
  results : List TransformResult

/-- Order-preserving sequence of success results (spec §4.3). -/
def TransformBatch.successes (b : TransformBatch) : List TransformResult :=
  b.results.filter fun r => r.outcome.isSuccess

/-- Order-preserving sequence of failure results (spec §4.3). -/
def TransformBatch.failures (b : TransformBatch) : List TransformResult :=
  b.results.filter fun r => r.outcome.isFailure

/-- Order-preserving sequence of skipped results (spec §4.3). -/
def TransformBatch.skipped (b : TransformBatch) : List TransformResult :=
  b.results.filter fun r => r.outcome.isSkip

/-- The uuids of the records the batch was built from (the original
selection, in order). -/
def TransformBatch.recordUuids (b : TransformBatch) : List String :=
  b.results.map fun r => r.record.uuid

/-- Modelled from the spec: the per-record transform algorithm (§4.2 steps
1-3), from the missing `migrator.py`.  `fetch` is the external content fetch
(`GeonetworkClient.get_record`), returning the record XML or raising with a
message.  The check order (metadata type, then working copy, then
fetch/apply) is pinned by §4.2 and by
`tests/test_transform.py::test_transform_metadata_type` /
`test_transform_working_copy`. -/
def transformRecord (fetch : String → Except String String)
    (t : Transformation) (params : List (String × String)) (r : Record) :
    TransformResult :=
  if r.md_type = MetadataType.SUB_TEMPLATE ∨
     r.md_type = MetadataType.TEMPLATE_OF_SUB_TEMPLATE then
    { record := r, outcome := TransformOutcome.skipped SkipReason.UNSUPPORTED_METADATA_TYPE }
  else if r.hasWorkingCopy then
    { record := r, outcome := TransformOutcome.skipped SkipReason.HAS_WORKING_COPY }
  else
    match fetch r.uuid with
    | Except.error msg => { record := r, outcome := TransformOutcome.failure msg }
    | Except.ok content =>
      match t.apply content params with
      | ApplyResult.raises msg => { record := r, outcome := TransformOutcome.failure msg }
      | ApplyResult.noChange =>
        { record := r, outcome := TransformOutcome.skipped SkipReason.NO_CHANGE }
      | ApplyResult.changed c => { record := r, outcome := TransformOutcome.success c }

/-- Modelled from the spec: `Migrator.transform` (§4.2), from the missing
`migrator.py`: each record of the selection is classified independently, in
order, one result per record at the same index; a fetch/apply failure for
one record never prevents evaluation of subsequent records (each iteration
is exception-isolated, hence the total per-record function). -/
def transform (fetch : String → Except String String) (t : Transformation)
    (selection : List Record) (params : List (String × String)) :
    TransformBatch :=
  { transformation := t.id, params := params,
    results := selection.map (transformRecord fetch t params) }

/-- Modelled from the spec: `MigrateMode` enum (§3), from the missing
`batch.py` (the tests import `MigrateMode` from
`ecospheres_migrator.batch`). -/
inductive MigrateMode
  | OVERWRITE
  | CREATE
  deriving DecidableEq

/-- Modelled from the spec: per-record migrate outcome (§3 `MigrateResult`):
source/target uuid, catalog url, both contents (kept populated for
diagnostic display even on failure, hence `Option` set to `some` by the
stage), the template flag, and an optional error — exactly one of success
(no error) or failure (error set). -/
structure MigrateResult where
  source_uuid : String
  target_uuid : String
  url : String
  source_content : Option String
  target_content : Option String
  template : Bool
  error : Option String
  deriving DecidableEq

def MigrateResult.isSuccess (r : MigrateResult) : Bool :=
  r.error.isNone

def MigrateResult.isFailure (r : MigrateResult) : Bool :=
  r.error.isSome

/-- Modelled from the spec: `MigrateBatch` (§3): back-reference to the
transform job, mode, optional target group, ordered results. -/
structure MigrateBatch where
  transform_job_id : Option String
  mode : MigrateMode
  group : Option Int
  results : List MigrateResult

/-- Order-preserving sequence of migrate successes (spec §4.3). -/
def MigrateBatch.successes (b : MigrateBatch) : List MigrateResult :=
  b.results.filter fun r => r.isSuccess

/-- Order-preserving sequence of migrate failures (spec §4.3). -/
def MigrateBatch.failures (b : MigrateBatch) : List MigrateResult :=
  b.results.filter fun r => r.isFailure

/-- The external catalog interface used by the migrate stage (spec §6).
`fetch` is the source-content fetch used for diagnostic display;
`update_record` is the update-in-place call of `GeonetworkClient`
(uuid, metadata, template, status), failing with the exception message;
`put_record` is the duplicate-into-group call (uuid, metadata, template,
group).  Modelled from the spec: `put_record` returns the identifier newly
assigned by the remote system (§4.4 CREATE: "the remote system assigns a new
identifier, which becomes targetUuid"); the `duplicate_record` in src
`geonetwork.py` performs the remote call but the missing `migrator.py`
obtains the new identifier. -/
structure MigrateEnv where
  fetch : String → String
  update_record : String → String → Bool → Option Int → Except String Unit
  put_record : String → String → Bool → Option Int → Except String String

/-- The single remote write performed for one record: update in place under
OVERWRITE (target identifier is the source identifier), duplicate into the
group under CREATE (target identifier assigned by the remote call). -/
def writeOut (env : MigrateEnv) (overwrite : Bool) (group : Option Int)
    (r : Record) (content : String) : Except String String :=
  if overwrite then
    (env.update_record r.uuid content r.template r.statusOf).map fun _ => r.uuid
  else
    env.put_record r.uuid content r.template group

/-- Modelled from the spec: the per-record step of `Migrator.migrate` (§4.4),
from the missing `migrator.py`, with the behaviors pinned by
`tests/test_migrate.py`:
- transform successes are written with their transformed content and always
  yield a `MigrateResult` (success on remote ok, failure on remote error);
- `NO_CHANGE`-skipped records are also written (re-published with the
  original fetched content): `test_migrate_noop_overwrite` observes writes
  on every record of an all-`NO_CHANGE` batch and
  `test_migrate_noop_duplicate` observes the created duplicates, while
  `test_migrate_overwrite_gn_error` observes `len(failures()) ==
  len(md_fixtures)` for that same all-`NO_CHANGE` batch — so a failed write
  of a `NO_CHANGE` record is recorded as a failure, whereas a successful one
  is not recorded (`test_migrate_noop_overwrite` asserts
  `len(migrate_batch.successes()) == len(batch.successes()) == 0` although
  every write succeeded);
- transform failures and the other skip reasons are not written and yield no
  result (`test_migrate_error_overwrite` / `test_migrate_error_duplicate`
  observe untouched records and empty results);
- a failed write is recorded with the raised message verbatim and both
  contents still populated; no group validation is performed
  (`test_migrate_batch_records_success` calls `migrate` with
  `overwrite=False, group=None` and receives a normal batch). -/
def migrateRecord (env : MigrateEnv) (url : String) (overwrite : Bool)
    (group : Option Int) (tr : TransformResult) : Option MigrateResult :=
  let r := tr.record
  let src := env.fetch r.uuid
  match tr.outcome with
  | TransformOutcome.failure _ => none
  | TransformOutcome.skipped reason =>
    if reason = SkipReason.NO_CHANGE then
      match writeOut env overwrite group r src with
      | Except.ok _ => none
      | Except.error e =>
        some { source_uuid := r.uuid,
               target_uuid := if overwrite then r.uuid else "",
               url := url, source_content := some src,
               target_content := some src, template := r.template,
               error := some e }
    else none
  | TransformOutcome.success c =>
    match writeOut env overwrite group r c with
    | Except.ok newUuid =>
      some { source_uuid := r.uuid, target_uuid := newUuid, url := url,
             source_content := some src, target_content := some c,
             template := r.template, error := none }
    | Except.error e =>
      some { source_uuid := r.uuid,
             target_uuid := if overwrite then r.uuid else "",
             url := url, source_content := some src,
             target_content := some c, template := r.template,
             error := some e }

/-- Modelled from the spec: `Migrator.migrate` (§4.4), from the missing
`migrator.py`: consumes a `TransformBatch`, processes eligible records in
input order with per-record exception isolation, and returns a
`MigrateBatch` (mode OVERWRITE when `overwrite`, CREATE otherwise, as pinned
by `test_migrate_overwrite_gn_error` / `test_migrate_duplicate_gn_error`). -/
def migrate (env : MigrateEnv) (url : String) (batch : TransformBatch)
    (overwrite : Bool) (group : Option Int)
    (transform_job_id : Option String) : MigrateBatch :=
  { transform_job_id := transform_job_id,
    mode := if overwrite then MigrateMode.OVERWRITE else MigrateMode.CREATE,
    group := group,
    results := batch.results.filterMap (migrateRecord env url overwrite group) }

/-- A record eligible for the migrate stage: a transform success or a
`NO_CHANGE` skip (see `migrateRecord`). -/
def TransformResult.isEligible (tr : TransformResult) : Bool :=
  tr.outcome.isSuccess || tr.outcome.isNoChange

/-- First value bound to the key in an ordered string mapping (Python dict
lookup for the dicts used here). -/
def lookupPairs (k : String) : List (String × String) → Option String
  | [] => none
  | (k2, v) :: rest => if k2 = k then some v else lookupPairs k rest

/-- The `x-www-form-urlencoded` body built by
`GeonetworkClient.update_record` (src `geonetwork.py` lines 143-155): the
fixed editor fields, the template flag as `"y"`/`"n"`, the metadata under
`"data"`, and — only when `status` is truthy and different from `1`
(`if status and status != 1:`) — the `"status"` field.  Python dict
insertion order puts `"status"` last. -/
def update_record_form (template : Bool) (status : Option Int)
    (metadata : String) : List (String × String) :=
  let base := [("tab", "xml"), ("withAttributes", "false"),
               ("withValidationErrors", "false"), ("commit", "true"),
               ("terminate", "true"),
               ("template", if template then "y" else "n"),
               ("data", metadata)]
  match status with
  | some s => if s ≠ 0 ∧ s ≠ 1 then base ++ [("status", toString s)] else base
  | none => base

/-- An XML element tree: tag, attributes in document order, direct text, and
children in document order.  This is the shape `lxml.etree` exposes to
`extract_record_info`; element serialization is injective on this shape, so
byte-for-byte identity of serialized records is tree equality. -/
inductive Xml
  | elem (tag : String) (attrs : List (String × String)) (text : Option String)
      (children : List Xml)

def Xml.tag : Xml → String
  | .elem t _ _ _ => t

def Xml.attrs : Xml → List (String × String)
  | .elem _ a _ _ => a

def Xml.text : Xml → Option String
  | .elem _ _ x _ => x

def Xml.children : Xml → List Xml
  | .elem _ _ _ c => c

/-- A leaf element with only a tag and text, as built by `lxml.builder.E`
calls like `E.createDate(...)`. -/
def leaf (tag : String) (text : String) : Xml :=
  Xml.elem tag [] (some text) []

/-- First child element with the given tag, in document order: this is both
`record.xpath(...)[0]` (restricted to one path step) and `ri.find(tag)`. -/
def findByTag (tg : String) : List Xml → Option Xml
  | [] => none
  | x :: xs => if x.tag = tg then some x else findByTag tg xs

/-- Remove the first element with the given tag, in document order:
`ri.getparent().remove(ri)` for the element returned by the xpath. -/
def removeFirstByTag (tg : String) : List Xml → List Xml
  | [] => []
  | x :: xs => if x.tag = tg then xs else x :: removeFirstByTag tg xs

/-- Number of children with the given tag. -/
def countByTag (tg : String) (l : List Xml) : Nat :=
  l.countP fun x => x.tag = tg

/-- The exceptions `extract_record_info` can raise:
`indexError` for `record.xpath("/gmd:MD_Metadata/geonet:info")[0]` on a
record without such an element; `attributeError` for `ri.find(tag).text`
when the child is absent (`None.text`); `typeError` for an `E` builder call
on a child whose text is `None`; `keyError` for `sources[source_id]` when
the source id is not a key.  (The embedding checks each child fully — find,
then text — in source order, a faithful account of which inputs raise,
though Python would defer a `None`-text failure to the `E` builder call.) -/
inductive ExtractError
  | indexError
  | attributeError (childTag : String)
  | typeError (childTag : String)
  | keyError (sourceId : String)
  deriving DecidableEq

/-- `ri.find(tg).text` with the text required to be usable by an `E` builder
call: absent child raises `attributeError`, absent text `typeError`. -/
def childText (ri : Xml) (tg : String) : Except ExtractError String :=
  match findByTag tg ri.children with
  | none => Except.error (ExtractError.attributeError tg)
  | some e =>
    match e.text with
    | none => Except.error (ExtractError.typeError tg)
    | some s => Except.ok s

/-- The MEF `info.xml` document built by `extract_record_info`
(src `geonetwork.py` lines 201-220): `E.info(E.general(...), E.categories(),
E.privileges(), E.public(), E.private(), version="1.1")`. -/
def mefInfo (source_id createDate changeDate schemaText isTemplateText
    localId rating popularity uuidText siteName : String) : Xml :=
  Xml.elem "info" [("version", "1.1")] none
    [ Xml.elem "general" [] none
        [ leaf "createDate" createDate,
          leaf "changeDate" changeDate,
          leaf "schema" schemaText,
          leaf "isTemplate" isTemplateText,
          leaf "localId" localId,
          leaf "format" "simple",
          leaf "rating" rating,
          leaf "popularity" popularity,
          leaf "uuid" uuidText,
          leaf "siteId" source_id,
          leaf "siteName" siteName ],
      Xml.elem "categories" [] none [],
      Xml.elem "privileges" [] none [],
      Xml.elem "public" [] none [],
      Xml.elem "private" [] none [] ]

/-- Shallow embedding of `extract_record_info` (src `geonetwork.py` lines
190-221).  The in-place removal of the `geonet:info` element
(`ri.getparent().remove(ri)`) is embedded by state passing: on success the
function returns the mutated record (first component) together with the
built `info.xml` document (second component); every Python exception path
is an `Except.error`.  The root must be `gmd:MD_Metadata` and have a
`geonet:info` child for the xpath to produce a hit (`[0]` raises
`IndexError` otherwise). -/
def extract_record_info (record : Xml) (sources : List (String × String)) :
    Except ExtractError (Xml × Xml) :=
  if record.tag = "gmd:MD_Metadata" then
    match findByTag "geonet:info" record.children with
    | none => Except.error ExtractError.indexError
    | some ri =>
      let stripped := Xml.elem record.tag record.attrs record.text
        (removeFirstByTag "geonet:info" record.children)
      match childText ri "source" with
      | Except.error e => Except.error e
      | Except.ok source_id =>
        match childText ri "createDate" with
        | Except.error e => Except.error e
        | Except.ok createDate =>
          match childText ri "changeDate" with
          | Except.error e => Except.error e
          | Except.ok changeDate =>
            match childText ri "schema" with
            | Except.error e => Except.error e
            | Except.ok schemaText =>
              match childText ri "isTemplate" with
              | Except.error e => Except.error e
              | Except.ok isTemplateText =>
                match childText ri "id" with
                | Except.error e => Except.error e
                | Except.ok localId =>
                  match childText ri "rating" with
                  | Except.error e => Except.error e
                  | Except.ok rating =>
                    match childText ri "popularity" with
                    | Except.error e => Except.error e
                    | Except.ok popularity =>
                      match childText ri "uuid" with
                      | Except.error e => Except.error e
                      | Except.ok uuidText =>
                        match lookupPairs source_id sources with
                        | none => Except.error (ExtractError.keyError source_id)
                        | some siteName =>
                          Except.ok (stripped,
                            mefInfo source_id createDate changeDate schemaText
                              isTemplateText localId rating popularity
                              uuidText siteName)
  else Except.error ExtractError.indexError

/-- The `geonet:info` element carrying exactly the fields that
`extract_record_info` captures, one child per captured field, in the capture
order.  Records whose info block has this canonical shape are the ones the
strip/re-wrap round trip can reproduce. -/
def canonicalInfoElem (source_id createDate changeDate schemaText
    isTemplateText localId rating popularity uuidText : String) : Xml :=
  Xml.elem "geonet:info" [] none
    [ leaf "source" source_id,
      leaf "createDate" createDate,
      leaf "changeDate" changeDate,
      leaf "schema" schemaText,
      leaf "isTemplate" isTemplateText,
      leaf "id" localId,
      leaf "rating" rating,
      leaf "popularity" popularity,
      leaf "uuid" uuidText ]

/-- Modelled from the spec: the re-wrap half of the export round trip (§6:
"stripping + re-wrapping must reproduce a byte-identical record when
re-imported by the same external system") — the re-importing system is
external and not among the sources.  The general section of `info.xml` is
read back and a `geonet:info` element is rebuilt from the captured fields
(`siteId` → `source`, `localId` → `id`) and appended to the stripped
record. -/
def reattach (stripped : Xml) (infoDoc : Xml) : Option Xml :=
  match findByTag "general" infoDoc.children with
  | none => none
  | some g =>
    match childText g "siteId", childText g "createDate",
          childText g "changeDate", childText g "schema",
          childText g "isTemplate", childText g "localId",
          childText g "rating", childText g "popularity",
          childText g "uuid" with
    | Except.ok sid, Except.ok cd, Except.ok chd, Except.ok sch,
      Except.ok tpl, Except.ok lid, Except.ok rat, Except.ok pop,
      Except.ok uid =>
      some (Xml.elem stripped.tag stripped.attrs stripped.text
        (stripped.children ++ [canonicalInfoElem sid cd chd sch tpl lid rat pop uid]))
    | _, _, _, _, _, _, _, _, _ => none

/-! ### Concrete fixtures (records, environments, batches, XML documents)
used by the witnesses and counterexamples below. -/

/-- A content fetch that always succeeds. -/
def fetchOk : String → Except String String := fun _ => Except.ok "<record/>"

def recPlain : Record :=
  { uuid := "uuid-a", title := "plain record", template := false,
    md_type := MetadataType.METADATA, state := none }

def recPlainB : Record :=
  { uuid := "uuid-b", title := "second plain record", template := false,
    md_type := MetadataType.METADATA,
    state := some { stage := WorkflowStage.NONE, status := 2 } }

def recSub : Record :=
  { uuid := "uuid-sub", title := "sub template", template := false,
    md_type := MetadataType.SUB_TEMPLATE, state := none }

def recWC : Record :=
  { uuid := "uuid-wc", title := "working copy", template := false,
    md_type := MetadataType.METADATA,
    state := some { stage := WorkflowStage.WORKING_COPY, status := 1 } }

/-- A remote that accepts every write; duplicates are assigned the fresh
identifier `"uuid-fresh"`. -/
def envOk : MigrateEnv :=
  { fetch := fun _ => "<source/>",
    update_record := fun _ _ _ _ => Except.ok (),
    put_record := fun _ _ _ _ => Except.ok "uuid-fresh" }

/-- A remote whose update and duplicate calls always raise `"boom"`. -/
def envBoom : MigrateEnv :=
  { fetch := fun _ => "<source/>",
    update_record := fun _ _ _ _ => Except.error "boom",
    put_record := fun _ _ _ _ => Except.error "boom" }

def trSuccessA : TransformResult :=
  { record := recPlain, outcome := TransformOutcome.success "<new/>" }

def trNoChangeB : TransformResult :=
  { record := recPlainB, outcome := TransformOutcome.skipped SkipReason.NO_CHANGE }

def batchOneSuccess : TransformBatch :=
  { transformation := "change-language", params := [], results := [trSuccessA] }

def batchOneNoChange : TransformBatch :=
  { transformation := "noop", params := [], results := [trNoChangeB] }

def trSkipSub : TransformResult :=
  { record := recSub,
    outcome := TransformOutcome.skipped SkipReason.UNSUPPORTED_METADATA_TYPE }

def batchOneOtherSkip : TransformBatch :=
  { transformation := "noop", params := [], results := [trSkipSub] }

def batchMixed : TransformBatch :=
  { transformation := "noop", params := [],
    results := [trSuccessA, trNoChangeB,
                { record := recPlain, outcome := TransformOutcome.failure "failed" },
                { record := recSub,
                  outcome := TransformOutcome.skipped SkipReason.UNSUPPORTED_METADATA_TYPE }] }

/-- The nine captured `geonet:info` children shared by the two round-trip
records. -/
def infoFieldsX : List Xml :=
  [ leaf "source" "src-1", leaf "createDate" "2024-01-01",
    leaf "changeDate" "2024-02-02", leaf "schema" "iso19139",
    leaf "isTemplate" "n", leaf "id" "42", leaf "rating" "0",
    leaf "popularity" "3", leaf "uuid" "rec-uuid" ]

def riPlain : Xml := Xml.elem "geonet:info" [] none infoFieldsX

/-- Same info block with one extra child (`ownerId`) that
`extract_record_info` does not capture. -/
def riExtra : Xml :=
  Xml.elem "geonet:info" [] none (infoFieldsX ++ [leaf "ownerId" "7"])

def payloadX : Xml :=
  Xml.elem "gmd:fileIdentifier" [] (some "rec-uuid") []

def recXmlA : Xml :=
  Xml.elem "gmd:MD_Metadata" [("xmlns:gmd", "gmd-ns")] none [payloadX, riPlain]

def recXmlB : Xml :=
  Xml.elem "gmd:MD_Metadata" [("xmlns:gmd", "gmd-ns")] none [payloadX, riExtra]

def sourcesX : List (String × String) := [("src-1", "Site One")]

/-- The record content both round-trip records strip to. -/
def strippedX : Xml :=
  Xml.elem "gmd:MD_Metadata" [("xmlns:gmd", "gmd-ns")] none [payloadX]

/-- The `info.xml` document both round-trip records extract to. -/
def infoDocX : Xml :=
  mefInfo "src-1" "2024-01-01" "2024-02-02" "iso19139" "n" "42" "0" "3"
    "rec-uuid" "Site One"

/-- The migrate result the CREATE path produces for `trSuccessA` under
`envOk`. -/
def resCreateA : MigrateResult :=
  { source_uuid := "uuid-a", target_uuid := "uuid-fresh", url := "url",
    source_content := some "<source/>", target_content := some "<new/>",
    template := false, error := none }

end Ecospheres

namespace Ecospheres

/-! ### Helper lemmas -/

/-- Every branch of the per-record transform algorithm keeps the input
record. -/
theorem transformRecord_record (fetch : String → Except String String)
    (t : Transformation) (params : List (String × String)) (r : Record) :
    (transformRecord fetch t params r).record = r := by
  unfold transformRecord
  split
  · rfl
  · split
    · rfl
    · split
      · rfl
      · split <;> rfl

/-- Success/failure/skip filters of a transform result list partition its
length. -/
theorem transform_filter_partition (l : List TransformResult) :
    (l.filter fun r => r.outcome.isSuccess).length +
      (l.filter fun r => r.outcome.isFailure).length +
      (l.filter fun r => r.outcome.isSkip).length = l.length := by
  induction l with
  | nil => rfl
  | cons a l ih =>
    cases h : a.outcome <;>
      simp [List.filter_cons, h, TransformOutcome.isSuccess,
        TransformOutcome.isFailure, TransformOutcome.isSkip] at ih ⊢ <;>
      omega

/-! ### C1 -/

/-- C1: for every transformation, content fetch and selection,
`transform` returns a batch with exactly one result per input record at the
same index (the results project back to the selection), and the
`successes()`, `failures()` and `skipped()` sequences partition the results
exactly: their lengths add up to the number of results and every possible
result outcome is counted by exactly one of the three filters.  The
statement quantifies over all fetch functions, including ones that raise
for some records, so one record's fetch/apply failure never prevents
evaluation of subsequent records. -/
theorem transform_length_partition (fetch : String → Except String String)
    (t : Transformation) (selection : List Record)
    (params : List (String × String)) :
    ((transform fetch t selection params).results.map fun tr => tr.record) = selection ∧
    (transform fetch t selection params).results.length = selection.length ∧
    (transform fetch t selection params).successes.length +
      (transform fetch t selection params).failures.length +
      (transform fetch t selection params).skipped.length =
      (transform fetch t selection params).results.length ∧
    ∀ tr : TransformResult,
      cond tr.outcome.isSuccess 1 0 + cond tr.outcome.isFailure 1 0 +
        cond tr.outcome.isSkip 1 0 = 1 := by
  refine ⟨?_, ?_, ?_, ?_⟩
  · show (selection.map (transformRecord fetch t params)).map (fun tr => tr.record) = selection
    induction selection with
    | nil => rfl
    | cons a l ih => simp [transformRecord_record, ih]
  · exact List.length_map selection _
  · exact transform_filter_partition _
  · intro tr
    cases tr.outcome <;> rfl

/-! ### C2 -/

/-- C2: a record whose metadata type is `SUB_TEMPLATE` or
`TEMPLATE_OF_SUB_TEMPLATE` is skipped with `UNSUPPORTED_METADATA_TYPE`
whatever its workflow state (the metadata-type check precedes the
working-copy check), and a record passing the metadata-type check whose
workflow stage is `WORKING_COPY` is skipped with `HAS_WORKING_COPY` — in
both cases for every transformation, parameters and content fetch, so
`apply` and the fetch are never invoked for the record (the result does not
depend on them). -/
theorem transform_skip_rules (fetch : String → Except String String)
    (t : Transformation) (params : List (String × String)) (r : Record) :
    ((r.md_type = MetadataType.SUB_TEMPLATE ∨
        r.md_type = MetadataType.TEMPLATE_OF_SUB_TEMPLATE) →
      transformRecord fetch t params r =
        { record := r,
          outcome := TransformOutcome.skipped SkipReason.UNSUPPORTED_METADATA_TYPE }) ∧
    (¬(r.md_type = MetadataType.SUB_TEMPLATE ∨
        r.md_type = MetadataType.TEMPLATE_OF_SUB_TEMPLATE) →
      r.hasWorkingCopy = true →
      transformRecord fetch t params r =
        { record := r,
          outcome := TransformOutcome.skipped SkipReason.HAS_WORKING_COPY }) := by
  constructor
  · intro h
    unfold transformRecord
    rw [if_pos h]
  · intro h hw
    unfold transformRecord
    rw [if_neg h, if_pos hw]

/-- Witness for C2 at concrete inputs: a sub-template record (with the noop
transformation) is skipped as unsupported, and a plain record carrying a
working copy is skipped as having a working copy. -/
theorem transform_skip_rules_witness :
    transformRecord fetchOk noopTransformation [] recSub =
      { record := recSub,
        outcome := TransformOutcome.skipped SkipReason.UNSUPPORTED_METADATA_TYPE } ∧
    transformRecord fetchOk noopTransformation [] recWC =
      { record := recWC,
        outcome := TransformOutcome.skipped SkipReason.HAS_WORKING_COPY } :=
  ⟨(transform_skip_rules fetchOk noopTransformation [] recSub).1 (Or.inl rfl),
   (transform_skip_rules fetchOk noopTransformation [] recWC).2 (by decide) rfl⟩

/-! ### C8 -/

/-- C8 counterexample: the claim says the `error` transformation "yields
failures for 100% of any non-empty selection, with 0 successes and 0
skips", but the skip checks precede `apply`: on the non-empty selection
`[recWC]` (a record with a working copy) the `error` transformation
produces 0 failures and 1 skip. -/
theorem transform_error_all_failures_cex :
    (transform fetchOk (errorTransformation "boom") [recWC] []).failures.length ≠
      ([recWC] : List Record).length ∧
    (transform fetchOk (errorTransformation "boom") [recWC] []).skipped.length ≠ 0 := by
  decide

/-- Per-record half of the amended C8: when the skip checks pass, the fetch
succeeds and `apply` raises, the result is a failure carrying the raised
message verbatim. -/
theorem transformRecord_apply_raises (fetch : String → Except String String)
    (t : Transformation) (params : List (String × String)) (r : Record)
    (content msg : String)
    (h1 : ¬(r.md_type = MetadataType.SUB_TEMPLATE ∨
        r.md_type = MetadataType.TEMPLATE_OF_SUB_TEMPLATE))
    (h2 : r.hasWorkingCopy = false)
    (hf : fetch r.uuid = Except.ok content)
    (ha : t.apply content params = ApplyResult.raises msg) :
    transformRecord fetch t params r =
      { record := r, outcome := TransformOutcome.failure msg } := by
  unfold transformRecord
  rw [if_neg h1, if_neg (by simp [h2])]
  simp [hf, ha]

/-- The `error` transformation turns every record passing the skip checks
into a failure (the raised message, or the fetch message when the fetch
itself raises). -/
theorem transformRecord_error_isFailure (fetch : String → Except String String)
    (params : List (String × String)) (msg : String) (r : Record)
    (h1 : ¬(r.md_type = MetadataType.SUB_TEMPLATE ∨
        r.md_type = MetadataType.TEMPLATE_OF_SUB_TEMPLATE))
    (h2 : r.hasWorkingCopy = false) :
    (transformRecord fetch (errorTransformation msg) params r).outcome.isFailure = true := by
  unfold transformRecord
  rw [if_neg h1, if_neg (by simp [h2])]
  cases hf : fetch r.uuid
  · rfl
  · rfl

/-- C8 amended: for every record that passes both skip checks, if
`transformation.apply` raises then that record's result is
`failure(message)` with the raised message verbatim (not wrapped); and the
`error` transformation, which always raises, yields failures for 100% of
any selection whose records all pass the skip checks, with 0 successes and
0 skips. -/
theorem transform_error_all_failures (fetch : String → Except String String)
    (params : List (String × String)) (msg : String) :
    (∀ (t : Transformation) (r : Record) (content : String),
      ¬(r.md_type = MetadataType.SUB_TEMPLATE ∨
          r.md_type = MetadataType.TEMPLATE_OF_SUB_TEMPLATE) →
      r.hasWorkingCopy = false →
      fetch r.uuid = Except.ok content →
      t.apply content params = ApplyResult.raises msg →
      transformRecord fetch t params r =
        { record := r, outcome := TransformOutcome.failure msg }) ∧
    (∀ selection : List Record,
      (∀ r ∈ selection,
        ¬(r.md_type = MetadataType.SUB_TEMPLATE ∨
            r.md_type = MetadataType.TEMPLATE_OF_SUB_TEMPLATE) ∧
        r.hasWorkingCopy = false) →
      (transform fetch (errorTransformation msg) selection params).failures.length =
        selection.length ∧
      (transform fetch (errorTransformation msg) selection params).successes.length = 0 ∧
      (transform fetch (errorTransformation msg) selection params).skipped.length = 0) := by
  constructor
  · intro t r content h1 h2 hf ha
    exact transformRecord_apply_raises fetch t params r content msg h1 h2 hf ha
  · intro selection hsel
    have hall : ∀ res ∈ (transform fetch (errorTransformation msg) selection params).results,
        res.outcome.isFailure = true := by
      intro res hres
      simp only [transform, List.mem_map] at hres
      obtain ⟨r, hr, rfl⟩ := hres
      exact transformRecord_error_isFailure fetch params msg r (hsel r hr).1 (hsel r hr).2
    have hlen : (transform fetch (errorTransformation msg) selection params).results.length =
        selection.length := List.length_map selection _
    refine ⟨?_, ?_, ?_⟩
    · rw [← hlen]
      unfold TransformBatch.failures
      rw [List.filter_eq_self.mpr hall]
    · unfold TransformBatch.successes
      rw [List.filter_eq_nil_iff.mpr ?_]
      · rfl
      · intro res hres
        have := hall res hres
        cases h : res.outcome <;>
          simp [TransformOutcome.isFailure, TransformOutcome.isSuccess, h] at this ⊢
    · unfold TransformBatch.skipped
      rw [List.filter_eq_nil_iff.mpr ?_]
      · rfl
      · intro res hres
        have := hall res hres
        cases h : res.outcome <;>
          simp [TransformOutcome.isFailure, TransformOutcome.isSkip, h] at this ⊢

/-- Witness for C8 amended at concrete inputs: the verbatim half at a plain
record whose apply raises `"boom"`, and the counting half on a two-record
selection passing the skip checks. -/
theorem transform_error_all_failures_witness :
    transformRecord fetchOk (errorTransformation "boom") [] recPlain =
      { record := recPlain, outcome := TransformOutcome.failure "boom" } ∧
    (transform fetchOk (errorTransformation "boom") [recPlain, recPlainB] []).failures.length = 2 :=
  ⟨(transform_error_all_failures fetchOk [] "boom").1 (errorTransformation "boom")
      recPlain "<record/>" (by decide) rfl rfl rfl,
   ((transform_error_all_failures fetchOk [] "boom").2 [recPlain, recPlainB]
      (by decide)).1⟩

/-! ### Migrate-stage helper lemmas -/

/-- A transform success always produces a migrate result (success or
failure of the remote write). -/
theorem migrateRecord_isSome_of_success (env : MigrateEnv) (url : String)
    (overwrite : Bool) (group : Option Int) (tr : TransformResult)
    (h : tr.outcome.isSuccess = true) :
    (migrateRecord env url overwrite group tr).isSome = true := by
  unfold migrateRecord
  cases ho : tr.outcome <;>
    simp [TransformOutcome.isSuccess, ho] at h ⊢
  split <;> rfl

/-- A transform result that is neither a success nor a `NO_CHANGE` skip
produces no migrate result. -/
theorem migrateRecord_none_of_not_eligible (env : MigrateEnv) (url : String)
    (overwrite : Bool) (group : Option Int) (tr : TransformResult)
    (h : tr.isEligible = false) :
    migrateRecord env url overwrite group tr = none := by
  unfold TransformResult.isEligible at h
  unfold migrateRecord
  cases ho : tr.outcome with
  | failure e => simp
  | success c => simp [TransformOutcome.isSuccess, ho] at h
  | skipped reason =>
    cases reason with
    | NO_CHANGE => simp [TransformOutcome.isNoChange, ho] at h
    | HAS_WORKING_COPY => simp
    | UNSUPPORTED_METADATA_TYPE => simp

/-- Only successes and `NO_CHANGE` skips can produce a migrate result. -/
theorem migrateRecord_isSome_eligible (env : MigrateEnv) (url : String)
    (overwrite : Bool) (group : Option Int) (tr : TransformResult)
    (h : (migrateRecord env url overwrite group tr).isSome = true) :
    tr.isEligible = true := by
  by_contra hne
  rw [migrateRecord_none_of_not_eligible env url overwrite group tr
    (Bool.eq_false_iff.mpr hne)] at h
  simp at h

/-- Migrate success/failure filters partition the results. -/
theorem migrate_filter_partition (l : List MigrateResult) :
    (l.filter fun r => r.isSuccess).length +
      (l.filter fun r => r.isFailure).length = l.length := by
  induction l with
  | nil => rfl
  | cons a l ih =>
    cases h : a.error <;>
      simp [List.filter_cons, MigrateResult.isSuccess, MigrateResult.isFailure,
        h] at ih ⊢ <;>
      omega

/-! ### C3 -/

/-- C3 counterexample: the claim says skipped transform results are never
represented in the output `MigrateBatch` and
`len(migrateBatch.results) == len(b.successes())`; but on a batch holding a
single `NO_CHANGE`-skipped record, with a remote whose update call raises,
`migrate` in overwrite mode produces one (failure) result while the batch
has zero transform successes — the behavior
`tests/test_migrate.py::test_migrate_overwrite_gn_error` pins
(`len(failures()) == len(md_fixtures)` for the all-skipped noop batch). -/
theorem migrate_results_length_cex :
    (migrate envBoom "url" batchOneNoChange true none none).results.length ≠
      batchOneNoChange.successes.length := by
  decide

/-- C3 amended: `migrate` produces exactly one `MigrateResult` per transform
success (one per success even when the remote write fails), at most one per
`NO_CHANGE`-skipped record (exactly when its re-publish write fails), and
none for failed or otherwise-skipped transform results; the results appear
in input order (the output is the in-order `filterMap` of the per-record
step); `successes()` and `failures()` partition the results with no skip
category; and a batch with no transform successes and no `NO_CHANGE` skips
yields a `MigrateBatch` with zero results. -/
theorem migrate_results_characterization (env : MigrateEnv) (url : String)
    (batch : TransformBatch) (overwrite : Bool) (group : Option Int)
    (transform_job_id : Option String) :
    (migrate env url batch overwrite group transform_job_id).successes.length +
        (migrate env url batch overwrite group transform_job_id).failures.length =
      (migrate env url batch overwrite group transform_job_id).results.length ∧
    (∀ tr ∈ batch.results, tr.outcome.isSuccess = true →
      (migrateRecord env url overwrite group tr).isSome = true) ∧
    (∀ tr ∈ batch.results,
      (migrateRecord env url overwrite group tr).isSome = true →
      tr.isEligible = true) ∧
    ((∀ tr ∈ batch.results, tr.isEligible = false) →
      (migrate env url batch overwrite group transform_job_id).results = []) ∧
    (migrate env url batch overwrite group transform_job_id).results =
      batch.results.filterMap (migrateRecord env url overwrite group) := by
  refine ⟨migrate_filter_partition _, ?_, ?_, ?_, rfl⟩
  · intro tr _ h
    exact migrateRecord_isSome_of_success env url overwrite group tr h
  · intro tr _ h
    exact migrateRecord_isSome_eligible env url overwrite group tr h
  · intro h
    show batch.results.filterMap (migrateRecord env url overwrite group) = []
    rw [List.filterMap_eq_nil_iff]
    intro tr htr
    exact migrateRecord_none_of_not_eligible env url overwrite group tr (h tr htr)

/-- Witness for C3 amended at concrete inputs: on a batch with one transform
success the per-record step produces a result, and on a batch whose only
record is a non-`NO_CHANGE` skip the migrate results are empty. -/
theorem migrate_results_characterization_witness :
    (migrateRecord envOk "url" true none trSuccessA).isSome = true ∧
    (migrate envOk "url" batchOneOtherSkip true none none).results = [] :=
  ⟨(migrate_results_characterization envOk "url" batchOneSuccess true none none).2.1
      trSuccessA (by decide) rfl,
   (migrate_results_characterization envOk "url" batchOneOtherSkip true none none).2.2.2.1
      (by decide)⟩

/-! ### C5 -/

/-- When every remote update and duplicate call raises `msg`, every single
write fails with `msg`. -/
theorem writeOut_failing (env : MigrateEnv) (overwrite : Bool)
    (group : Option Int) (msg : String)
    (hupd : ∀ u c t s, env.update_record u c t s = Except.error msg)
    (hput : ∀ u c t g2, env.put_record u c t g2 = Except.error msg) :
    ∀ (r : Record) (c : String), writeOut env overwrite group r c = Except.error msg := by
  intro r c
  unfold writeOut
  cases overwrite <;> simp [hupd, hput, Except.map]

/-- The exact per-record migrate step under a remote whose every write
fails with `msg`: each eligible record yields a failure carrying `msg`,
with both contents populated; non-eligible records yield nothing. -/
theorem migrateRecord_failing_eq (env : MigrateEnv) (url : String)
    (overwrite : Bool) (group : Option Int) (msg : String)
    (hw : ∀ (r : Record) (c : String),
      writeOut env overwrite group r c = Except.error msg)
    (tr : TransformResult) :
    migrateRecord env url overwrite group tr =
      if tr.isEligible then
        some { source_uuid := tr.record.uuid,
               target_uuid := if overwrite then tr.record.uuid else "",
               url := url,
               source_content := some (env.fetch tr.record.uuid),
               target_content := some (match tr.outcome with
                 | TransformOutcome.success c => c
                 | _ => env.fetch tr.record.uuid),
               template := tr.record.template,
               error := some msg }
      else none := by
  unfold migrateRecord TransformResult.isEligible
  cases ho : tr.outcome with
  | failure e => simp [ho, TransformOutcome.isSuccess, TransformOutcome.isNoChange]
  | success c => simp [ho, hw, TransformOutcome.isSuccess]
  | skipped reason =>
    cases reason <;>
      simp [ho, hw, TransformOutcome.isSuccess, TransformOutcome.isNoChange]

/-- Under an always-failing remote, the number of migrate results equals the
number of eligible records. -/
theorem filterMap_failing_length (env : MigrateEnv) (url : String)
    (overwrite : Bool) (group : Option Int) (msg : String)
    (hw : ∀ (r : Record) (c : String),
      writeOut env overwrite group r c = Except.error msg)
    (l : List TransformResult) :
    (l.filterMap (migrateRecord env url overwrite group)).length =
      (l.filter fun tr => tr.isEligible).length := by
  induction l with
  | nil => rfl
  | cons tr l ih =>
    rw [List.filterMap_cons, List.filter_cons,
      migrateRecord_failing_eq env url overwrite group msg hw tr]
    by_cases he : tr.isEligible = true
    · rw [if_pos he, if_pos he]
      simp [ih]
    · rw [if_neg he, if_neg he]
      exact ih

/-- C5: injecting a remote failure with message `msg` into every update and
duplicate call makes every eligible record's `MigrateResult` a failure
whose `error` equals the raised message exactly, with `sourceContent` and
`targetContent` still populated; subsequent records are still processed, so
`failures()` counts all eligible records and `successes()` is zero. -/
theorem migrate_remote_failure_all (env : MigrateEnv) (url : String)
    (batch : TransformBatch) (overwrite : Bool) (group : Option Int)
    (transform_job_id : Option String) (msg : String)
    (hupd : ∀ u c t s, env.update_record u c t s = Except.error msg)
    (hput : ∀ u c t g2, env.put_record u c t g2 = Except.error msg) :
    (migrate env url batch overwrite group transform_job_id).failures.length =
      (batch.results.filter fun tr => tr.isEligible).length ∧
    (migrate env url batch overwrite group transform_job_id).successes.length = 0 ∧
    ∀ res ∈ (migrate env url batch overwrite group transform_job_id).results,
      res.error = some msg ∧ res.source_content.isSome = true ∧
        res.target_content.isSome = true := by
  have hw := writeOut_failing env overwrite group msg hupd hput
  have hprops : ∀ res ∈ (migrate env url batch overwrite group transform_job_id).results,
      res.error = some msg ∧ res.source_content.isSome = true ∧
        res.target_content.isSome = true := by
    intro res hres
    simp only [migrate, List.mem_filterMap] at hres
    obtain ⟨tr, _, hmr⟩ := hres
    rw [migrateRecord_failing_eq env url overwrite group msg hw tr] at hmr
    by_cases he : tr.isEligible = true
    · rw [if_pos he] at hmr
      injection hmr with h2
      rw [← h2]
      exact ⟨rfl, rfl, rfl⟩
    · rw [if_neg he] at hmr
      exact Option.noConfusion hmr
  refine ⟨?_, ?_, hprops⟩
  · have hall : ∀ res ∈ (migrate env url batch overwrite group transform_job_id).results,
        res.isFailure = true := by
      intro res hres
      have := (hprops res hres).1
      simp [MigrateResult.isFailure, this]
    show ((migrate env url batch overwrite group transform_job_id).results.filter
      fun r => r.isFailure).length = _
    rw [List.filter_eq_self.mpr hall]
    exact filterMap_failing_length env url overwrite group msg hw batch.results
  · show ((migrate env url batch overwrite group transform_job_id).results.filter
      fun r => r.isSuccess).length = 0
    rw [List.filter_eq_nil_iff.mpr ?_]
    · rfl
    · intro res hres
      have := (hprops res hres).1
      simp [MigrateResult.isSuccess, this]

/-- Witness for C5 at concrete inputs: under the always-raising remote
`envBoom`, the mixed batch (one success, one `NO_CHANGE` skip, one transform
failure, one other skip) yields exactly two migrate failures — one per
eligible record — and zero successes. -/
theorem migrate_remote_failure_all_witness :
    (migrate envBoom "url" batchMixed true none none).failures.length = 2 ∧
    (migrate envBoom "url" batchMixed true none none).successes.length = 0 := by
  have h := migrate_remote_failure_all envBoom "url" batchMixed true none none "boom"
    (fun _ _ _ _ => rfl) (fun _ _ _ _ => rfl)
  exact ⟨by rw [h.1]; rfl, h.2.1⟩

/-! ### C6 -/

/-- C6 counterexample: the claim says calling `migrate` with mode CREATE
and a null group is fatal with zero records processed; but on a batch with
one transform success, `migrate` with `overwrite := false` and
`group := none` processes the record and returns it as a migrate success —
the behavior `tests/test_migrate.py::test_migrate_batch_records_success`
pins (it calls `migrator.migrate(batch, overwrite=False, group=None)` and
receives a normal `MigrateBatch`). -/
theorem migrate_null_group_cex :
    (migrate envOk "url" batchOneSuccess false none none).results.length ≠ 0 ∧
    (migrate envOk "url" batchOneSuccess false none none).successes.length = 1 := by
  decide

/-- C6 amended: `migrate` performs no validation of `group`: under CREATE a
null group is not rejected — every transform success is still processed to
a `MigrateResult`, the null group being passed through to the remote
duplicate call — and under OVERWRITE the per-record processing ignores the
group argument entirely (the results are identical for any two group
values). -/
theorem migrate_group_handling (env : MigrateEnv) (url : String)
    (batch : TransformBatch) (g g2 : Option Int)
    (transform_job_id : Option String) :
    ((migrate env url batch true g transform_job_id).results =
      (migrate env url batch true g2 transform_job_id).results) ∧
    (∀ tr ∈ batch.results, tr.outcome.isSuccess = true →
      (migrateRecord env url false none tr).isSome = true) := by
  constructor
  · have hpt : ∀ tr, migrateRecord env url true g tr = migrateRecord env url true g2 tr := by
      intro tr
      unfold migrateRecord writeOut
      simp
    show batch.results.filterMap (migrateRecord env url true g) =
      batch.results.filterMap (migrateRecord env url true g2)
    exact congrArg (fun fn => List.filterMap fn batch.results) (funext hpt)
  · intro tr _ h
    exact migrateRecord_isSome_of_success env url false none tr h

/-- Witness for C6 amended at a concrete input: with a null group under
CREATE, the per-record step still produces a result for a transform
success. -/
theorem migrate_group_handling_witness :
    (migrateRecord envOk "url" false none trSuccessA).isSome = true :=
  (migrate_group_handling envOk "url" batchOneSuccess (some 1) (some 2) none).2
    trSuccessA (by decide) rfl

/-! ### C4 -/

/-- Every migrate result of the OVERWRITE path carries
`target_uuid = source_uuid` (on remote success the update call targets the
source identifier; on remote failure the failure result keeps it too). -/
theorem migrateRecord_overwrite_target (env : MigrateEnv) (url : String)
    (g : Option Int) (tr : TransformResult) (res : MigrateResult)
    (h : migrateRecord env url true g tr = some res) :
    res.target_uuid = res.source_uuid := by
  have hwcases : ∀ c : String,
      (∃ e, writeOut env true g tr.record c = Except.error e) ∨
        writeOut env true g tr.record c = Except.ok tr.record.uuid := by
    intro c
    unfold writeOut
    cases env.update_record tr.record.uuid c tr.record.template tr.record.statusOf with
    | error e => exact Or.inl ⟨e, by simp [Except.map]⟩
    | ok u => exact Or.inr (by simp [Except.map])
  unfold migrateRecord at h
  cases ho : tr.outcome with
  | failure e =>
    simp only [ho] at h
    exact Option.noConfusion h
  | success c =>
    simp only [ho] at h
    rcases hwcases c with ⟨e, hw⟩ | hw
    · rw [hw] at h
      injection h with h2
      rw [← h2]
      simp
    · rw [hw] at h
      injection h with h2
      rw [← h2]
  | skipped reason =>
    simp only [ho] at h
    by_cases hr : reason = SkipReason.NO_CHANGE
    · rw [if_pos hr] at h
      rcases hwcases (env.fetch tr.record.uuid) with ⟨e, hw⟩ | hw <;> rw [hw] at h
      · injection h with h2
        rw [← h2]
        simp
      · exact Option.noConfusion h
    · rw [if_neg hr] at h
      exact Option.noConfusion h

/-- A successful migrate result of the CREATE path comes from a transform
success whose duplicate call returned the result's target identifier. -/
theorem migrateRecord_create_ok (env : MigrateEnv) (url : String)
    (g : Option Int) (tr : TransformResult) (res : MigrateResult)
    (h : migrateRecord env url false g tr = some res)
    (herr : res.error = none) :
    ∃ c, tr.outcome = TransformOutcome.success c ∧
      env.put_record tr.record.uuid c tr.record.template g =
        Except.ok res.target_uuid ∧
      res.source_uuid = tr.record.uuid := by
  have hwput : ∀ c : String, writeOut env false g tr.record c =
      env.put_record tr.record.uuid c tr.record.template g := by
    intro c
    simp [writeOut]
  unfold migrateRecord at h
  cases ho : tr.outcome with
  | failure e =>
    simp only [ho] at h
    exact Option.noConfusion h
  | success c =>
    simp only [ho] at h
    cases hw : writeOut env false g tr.record c with
    | ok v =>
      rw [hw] at h
      injection h with h2
      refine ⟨c, rfl, ?_, ?_⟩
      · rw [← hwput c, hw, ← h2]
      · rw [← h2]
    | error e =>
      rw [hw] at h
      injection h with h2
      rw [← h2] at herr
      exact Option.noConfusion herr
  | skipped reason =>
    simp only [ho] at h
    by_cases hr : reason = SkipReason.NO_CHANGE
    · rw [if_pos hr] at h
      cases hw : writeOut env false g tr.record (env.fetch tr.record.uuid) with
      | ok v =>
        rw [hw] at h
        exact Option.noConfusion h
      | error e =>
        rw [hw] at h
        injection h with h2
        rw [← h2] at herr
        exact Option.noConfusion herr
    · rw [if_neg hr] at h
      exact Option.noConfusion h

/-- C4: under OVERWRITE every `MigrateResult` has `targetUuid` equal to its
`sourceUuid`; under CREATE, when the remote duplicate operation assigns
identifiers that are fresh (not among the batch's record uuids), every
successful `MigrateResult` has a `targetUuid` that is absent from the
original selection's uuids and in particular differs from its
`sourceUuid`. -/
theorem migrate_target_uuid (env : MigrateEnv) (url : String)
    (batch : TransformBatch) (g : Option Int)
    (transform_job_id : Option String) :
    (∀ res ∈ (migrate env url batch true g transform_job_id).results,
      res.target_uuid = res.source_uuid) ∧
    ((∀ u c t g2 v, env.put_record u c t g2 = Except.ok v →
        v ∉ batch.recordUuids) →
      ∀ res ∈ (migrate env url batch false g transform_job_id).results,
        res.error = none →
        res.target_uuid ∉ batch.recordUuids ∧
        res.target_uuid ≠ res.source_uuid) := by
  constructor
  · intro res hres
    simp only [migrate, List.mem_filterMap] at hres
    obtain ⟨tr, _, hmr⟩ := hres
    exact migrateRecord_overwrite_target env url g tr res hmr
  · intro hfresh res hres herr
    simp only [migrate, List.mem_filterMap] at hres
    obtain ⟨tr, htr, hmr⟩ := hres
    obtain ⟨c, _, hput, hsrc⟩ := migrateRecord_create_ok env url g tr res hmr herr
    have htgt := hfresh tr.record.uuid c tr.record.template g res.target_uuid hput
    refine ⟨htgt, ?_⟩
    intro heq
    apply htgt
    rw [heq, hsrc]
    exact List.mem_map_of_mem _ htr

/-- Witness for C4 at concrete inputs: under `envOk` (whose duplicate call
assigns `"uuid-fresh"`, absent from the one-record batch), the CREATE-mode
migrate result has a target uuid outside the selection and different from
its source uuid. -/
theorem migrate_target_uuid_witness :
    resCreateA.target_uuid ∉ batchOneSuccess.recordUuids ∧
    resCreateA.target_uuid ≠ resCreateA.source_uuid :=
  (migrate_target_uuid envOk "url" batchOneSuccess none none).2
    (by
      intro u c t g2 v hv
      injection hv with h2
      rw [← h2]
      decide)
    resCreateA (by decide) rfl

/-! ### C7 -/

/-- C7 counterexample: the claim says the workflow status is passed through
to the remote call as given for every non-null status value, without
special-casing or dropping any particular value; but
`GeonetworkClient.update_record` posts the editor form without a `status`
field when the status is `1` (`if status and status != 1:`), so status `1`
is dropped. -/
theorem update_record_status_cex :
    ¬ ∀ (template : Bool) (s : Int) (metadata : String),
        lookupPairs "status" (update_record_form template (some s) metadata) =
          some (toString s) :=
  fun h => absurd (h false 1 "md") (by decide)

/-- C7 amended: on the OVERWRITE path the remote editor form carries the
record's original `isTemplate` flag (as `"y"`/`"n"`) and the transformed
content, and the workflow status is passed through as given only when it is
non-null, non-zero and different from `1`; a null, zero or `1` status is
omitted from the posted form (Python truthiness plus the explicit
`status != 1` test). -/
theorem update_record_form_status (template : Bool) (s : Int)
    (metadata : String) :
    ((s ≠ 0 ∧ s ≠ 1) →
      lookupPairs "status" (update_record_form template (some s) metadata) =
        some (toString s)) ∧
    ((s = 0 ∨ s = 1) →
      lookupPairs "status" (update_record_form template (some s) metadata) = none) ∧
    lookupPairs "status" (update_record_form template none metadata) = none ∧
    lookupPairs "template" (update_record_form template (some s) metadata) =
      some (if template then "y" else "n") ∧
    lookupPairs "data" (update_record_form template (some s) metadata) =
      some metadata := by
  refine ⟨?_, ?_, ?_, ?_, ?_⟩
  · intro h
    simp only [update_record_form]
    rw [if_pos h]
    simp [lookupPairs]
  · intro h
    have hc : ¬(s ≠ 0 ∧ s ≠ 1) := by
      rcases h with rfl | rfl <;> simp
    simp only [update_record_form]
    rw [if_neg hc]
    simp [lookupPairs]
  · simp [update_record_form, lookupPairs]
  · simp only [update_record_form]
    split <;> simp [lookupPairs]
  · simp only [update_record_form]
    split <;> simp [lookupPairs]

/-- Witness for C7 amended at concrete inputs: status `5` is posted as
`"5"`, status `1` is omitted. -/
theorem update_record_form_status_witness :
    lookupPairs "status" (update_record_form true (some 5) "md") = some "5" ∧
    lookupPairs "status" (update_record_form true (some 1) "md") = none :=
  ⟨(update_record_form_status true 5 "md").1 (by decide),
   (update_record_form_status true 1 "md").2.1 (Or.inr rfl)⟩

/-! ### XML helper lemmas -/

/-- Appending an element with the sought tag to a list without it makes the
find return that element. -/
theorem findByTag_append_of_none (tg : String) (cs : List Xml) (x : Xml)
    (h : findByTag tg cs = none) (hx : x.tag = tg) :
    findByTag tg (cs ++ [x]) = some x := by
  induction cs with
  | nil => simp [findByTag, hx]
  | cons c cs ih =>
    by_cases hc : c.tag = tg
    · rw [findByTag, if_pos hc] at h
      exact Option.noConfusion h
    · rw [findByTag, if_neg hc] at h
      rw [List.cons_append, findByTag, if_neg hc]
      exact ih h

/-- Removing the sought tag from `cs ++ [x]` when only `x` carries it
yields `cs`. -/
theorem removeFirstByTag_append_of_none (tg : String) (cs : List Xml) (x : Xml)
    (h : findByTag tg cs = none) (hx : x.tag = tg) :
    removeFirstByTag tg (cs ++ [x]) = cs := by
  induction cs with
  | nil => simp [removeFirstByTag, hx]
  | cons c cs ih =>
    by_cases hc : c.tag = tg
    · rw [findByTag, if_pos hc] at h
      exact Option.noConfusion h
    · rw [findByTag, if_neg hc] at h
      rw [List.cons_append, removeFirstByTag, if_neg hc, ih h]

/-- Removing the first occurrence of a found tag decrements its count by
one. -/
theorem count_removeFirst_of_find (tg : String) (l : List Xml) (x : Xml)
    (h : findByTag tg l = some x) :
    countByTag tg (removeFirstByTag tg l) + 1 = countByTag tg l := by
  induction l with
  | nil => exact Option.noConfusion h
  | cons c cs ih =>
    by_cases hc : c.tag = tg
    · rw [removeFirstByTag, if_pos hc]
      simp [countByTag, List.countP_cons, hc]
    · rw [findByTag, if_neg hc] at h
      rw [removeFirstByTag, if_neg hc]
      simp only [countByTag, List.countP_cons] at ih ⊢
      simp [hc, ih h]

/-- A tag counted zero times is not found. -/
theorem find_none_of_count_zero (tg : String) (l : List Xml)
    (h : countByTag tg l = 0) : findByTag tg l = none := by
  induction l with
  | nil => rfl
  | cons c cs ih =>
    unfold countByTag at h ih
    rw [List.countP_cons] at h
    by_cases hc : c.tag = tg
    · simp [hc] at h
    · rw [findByTag, if_neg hc]
      apply ih
      simpa [hc] using h

/-- A successful `childText` means the child element exists. -/
theorem childText_ok_find (ri : Xml) (tg : String) (s : String)
    (h : childText ri tg = Except.ok s) :
    (findByTag tg ri.children).isSome = true := by
  unfold childText at h
  cases hf : findByTag tg ri.children with
  | none =>
    rw [hf] at h
    exact Except.noConfusion h
  | some e => rfl

/-! ### C9 -/

/-- C9 counterexample: no re-wrap whatsoever can reproduce every record
byte-for-byte from the outputs of `extract_record_info`: the two concrete
records `recXmlA` and `recXmlB` differ (the second carries an extra
`ownerId` child inside `geonet:info` that the extraction does not capture)
yet both extract to the same stripped content and the same `info.xml`
document, so any re-wrap maps their common image to at most one of them. -/
theorem extract_roundtrip_cex :
    ¬ ∃ rewrap : Xml → Xml → Xml,
        ∀ (record stripped info : Xml),
          extract_record_info record sourcesX = Except.ok (stripped, info) →
          rewrap stripped info = record := by
  rintro ⟨f, hf⟩
  have hA := hf recXmlA strippedX infoDocX rfl
  have hB := hf recXmlB strippedX infoDocX rfl
  rw [hA] at hB
  exact absurd
    (congrArg (fun r => (r.children.getD 1 payloadX).children.length) hB)
    (by decide)

/-- C9 amended: the strip/re-wrap round trip reproduces the original record
exactly for records whose `geonet:info` element is in the canonical
captured shape — the nine captured children (`source`, `createDate`,
`changeDate`, `schema`, `isTemplate`, `id`, `rating`, `popularity`,
`uuid`), each with text, the element sitting last under the root, its
source a key of the sources mapping; in general the `info.xml` document
retains only those fields, so `geonet:info` content outside them is lost
and byte-for-byte identity fails (see the counterexample). -/
theorem extract_reattach_roundtrip
    (rattrs : List (String × String)) (rtext : Option String) (cs : List Xml)
    (sid cd chd sch tpl lid rat pop uid siteName : String)
    (sources : List (String × String))
    (hclean : findByTag "geonet:info" cs = none)
    (hsrc : lookupPairs sid sources = some siteName) :
    extract_record_info
        (Xml.elem "gmd:MD_Metadata" rattrs rtext
          (cs ++ [canonicalInfoElem sid cd chd sch tpl lid rat pop uid]))
        sources =
      Except.ok (Xml.elem "gmd:MD_Metadata" rattrs rtext cs,
        mefInfo sid cd chd sch tpl lid rat pop uid siteName) ∧
    reattach (Xml.elem "gmd:MD_Metadata" rattrs rtext cs)
        (mefInfo sid cd chd sch tpl lid rat pop uid siteName) =
      some (Xml.elem "gmd:MD_Metadata" rattrs rtext
        (cs ++ [canonicalInfoElem sid cd chd sch tpl lid rat pop uid])) := by
  have hfind := findByTag_append_of_none "geonet:info" cs
    (canonicalInfoElem sid cd chd sch tpl lid rat pop uid) hclean rfl
  have hrem := removeFirstByTag_append_of_none "geonet:info" cs
    (canonicalInfoElem sid cd chd sch tpl lid rat pop uid) hclean rfl
  constructor
  · unfold extract_record_info
    simp only [Xml.tag, Xml.attrs, Xml.text, Xml.children, hfind, hrem]
    simp [childText, canonicalInfoElem, leaf, findByTag, Xml.children,
      Xml.text, Xml.tag, hsrc, mefInfo]
  · rfl

/-- Witness for C9 amended at a concrete record: re-wrapping the stripped
content of `recXmlA` with its extracted `info.xml` document rebuilds
`recXmlA` itself. -/
theorem extract_reattach_roundtrip_witness :
    reattach strippedX infoDocX = some recXmlA :=
  (extract_reattach_roundtrip [("xmlns:gmd", "gmd-ns")] none [payloadX]
    "src-1" "2024-01-01" "2024-02-02" "iso19139" "n" "42" "0" "3" "rec-uuid"
    "Site One" sourcesX rfl rfl).2

/-! ### C10 -/

/-- C10: `extract_record_info` mutates its input in place — embedded as
state passing, the returned record is the input with its (first)
`/gmd:MD_Metadata/geonet:info` element removed, so when the record held
exactly one such element the result no longer contains any and a second
call on it raises (`IndexError`); and the call is total only for records
that contain such an element having `source`, `createDate`, `changeDate`,
`schema`, `isTemplate`, `id`, `rating`, `popularity` and `uuid` children
and whose source text is a key of the supplied sources mapping. -/
theorem extract_mutation_totality (record : Xml)
    (sources : List (String × String)) (stripped info : Xml)
    (h : extract_record_info record sources = Except.ok (stripped, info)) :
    stripped.tag = record.tag ∧
    countByTag "geonet:info" record.children =
      countByTag "geonet:info" stripped.children + 1 ∧
    (countByTag "geonet:info" record.children = 1 →
      findByTag "geonet:info" stripped.children = none ∧
      extract_record_info stripped sources =
        Except.error ExtractError.indexError) ∧
    ∃ ri, findByTag "geonet:info" record.children = some ri ∧
      (findByTag "source" ri.children).isSome = true ∧
      (findByTag "createDate" ri.children).isSome = true ∧
      (findByTag "changeDate" ri.children).isSome = true ∧
      (findByTag "schema" ri.children).isSome = true ∧
      (findByTag "isTemplate" ri.children).isSome = true ∧
      (findByTag "id" ri.children).isSome = true ∧
      (findByTag "rating" ri.children).isSome = true ∧
      (findByTag "popularity" ri.children).isSome = true ∧
      (findByTag "uuid" ri.children).isSome = true ∧
      ∃ sid, childText ri "source" = Except.ok sid ∧
        (lookupPairs sid sources).isSome = true := by
  obtain ⟨rtag, rats, rtxt, rkids⟩ := record
  unfold extract_record_info at h
  simp only [Xml.tag, Xml.attrs, Xml.text, Xml.children] at h ⊢
  by_cases hroot : rtag = "gmd:MD_Metadata"
  case neg =>
    rw [if_neg hroot] at h
    exact Except.noConfusion h
  rw [if_pos hroot] at h
  cases hfind : findByTag "geonet:info" rkids with
  | none =>
    simp only [hfind] at h
    exact Except.noConfusion h
  | some ri =>
  simp only [hfind] at h
  cases hsrc0 : childText ri "source" with
  | error e =>
    simp only [hsrc0] at h
    exact Except.noConfusion h
  | ok source_id =>
  simp only [hsrc0] at h
  cases hcd : childText ri "createDate" with
  | error e =>
    simp only [hcd] at h
    exact Except.noConfusion h
  | ok createDate =>
  simp only [hcd] at h
  cases hchd : childText ri "changeDate" with
  | error e =>
    simp only [hchd] at h
    exact Except.noConfusion h
  | ok changeDate =>
  simp only [hchd] at h
  cases hsch : childText ri "schema" with
  | error e =>
    simp only [hsch] at h
    exact Except.noConfusion h
  | ok schemaText =>
  simp only [hsch] at h
  cases htpl : childText ri "isTemplate" with
  | error e =>
    simp only [htpl] at h
    exact Except.noConfusion h
  | ok isTemplateText =>
  simp only [htpl] at h
  cases hlid : childText ri "id" with
  | error e =>
    simp only [hlid] at h
    exact Except.noConfusion h
  | ok localId =>
  simp only [hlid] at h
  cases hrat : childText ri "rating" with
  | error e =>
    simp only [hrat] at h
    exact Except.noConfusion h
  | ok rating =>
  simp only [hrat] at h
  cases hpop : childText ri "popularity" with
  | error e =>
    simp only [hpop] at h
    exact Except.noConfusion h
  | ok popularity =>
  simp only [hpop] at h
  cases huid : childText ri "uuid" with
  | error e =>
    simp only [huid] at h
    exact Except.noConfusion h
  | ok uuidText =>
  simp only [huid] at h
  cases hlook : lookupPairs source_id sources with
  | none =>
    simp only [hlook] at h
    exact Except.noConfusion h
  | some siteName =>
  simp only [hlook] at h
  injection h with hpair
  rw [Prod.mk.injEq] at hpair
  obtain ⟨h1, h2⟩ := hpair
  subst h1
  refine ⟨rfl, (count_removeFirst_of_find _ _ _ hfind).symm, ?_, ri, rfl,
    childText_ok_find ri "source" source_id hsrc0,
    childText_ok_find ri "createDate" createDate hcd,
    childText_ok_find ri "changeDate" changeDate hchd,
    childText_ok_find ri "schema" schemaText hsch,
    childText_ok_find ri "isTemplate" isTemplateText htpl,
    childText_ok_find ri "id" localId hlid,
    childText_ok_find ri "rating" rating hrat,
    childText_ok_find ri "popularity" popularity hpop,
    childText_ok_find ri "uuid" uuidText huid,
    source_id, hsrc0, by rw [hlook]; rfl⟩
  intro hc1
  have hc0 : countByTag "geonet:info"
      (removeFirstByTag "geonet:info" rkids) = 0 := by
    have := count_removeFirst_of_find "geonet:info" rkids ri hfind
    omega
  have hfn := find_none_of_count_zero "geonet:info"
    (removeFirstByTag "geonet:info" rkids) hc0
  refine ⟨hfn, ?_⟩
  show extract_record_info
      (Xml.elem rtag rats rtxt (removeFirstByTag "geonet:info" rkids)) sources =
    Except.error ExtractError.indexError
  unfold extract_record_info
  simp only [Xml.tag, Xml.children]
  rw [if_pos hroot]
  simp only [hfn]

/-- Witness for C10 at a concrete record: extracting from `recXmlA`
succeeds (so the hypotheses hold at it), and by the theorem the stripped
record raises on a second extraction. -/
theorem extract_mutation_totality_witness :
    extract_record_info strippedX sourcesX =
      Except.error ExtractError.indexError :=
  ((extract_mutation_totality recXmlA sourcesX strippedX infoDocX rfl).2.2.1
    (by decide)).2

end Ecospheres
